import Mathlib

/-!
Verification development for the stratbox CBR-forms pipeline.

The definitions below are a shallow embedding of the Python sources under
src/stratbox: bytes are lists of byte values (Nat, each < 256), Python
scalars are an inductive value type, fallible code returns Except, and the
environment (network, filesystem, external tools) is passed in as explicit
function parameters.
-/

set_option autoImplicit false

deriving instance DecidableEq for Except

namespace Stratbox

/-- A Python bytes object: list of byte values. -/
abbrev Bytes := List Nat

/-- Result of Python float parsing: a finite value kept exactly as
mant * 10 ^ exp10 (decimal literals are exact in this model; binary64
rounding is not observable by any code under verification), signed
infinity, or nan. -/
inductive PyFloat where
  | finite (mant : Int) (exp10 : Int)
  | inf (neg : Bool)
  | nan
deriving DecidableEq, Repr

/-- A scalar cell value as produced by the DBF field parsers:
Python None, str, int or float. -/
inductive DbfValue where
  | pyNone
  | str (s : String)
  | int (n : Int)
  | float (f : PyFloat)
deriving DecidableEq, Repr

/-- Uncaught Python exception (the DBF decode path can only raise ValueError). -/
inductive PyErr where
  | valueError
deriving DecidableEq, Repr

/-- Whitespace bytes stripped by Python bytes.strip(). -/
def isWsByte (b : Nat) : Bool :=
  b == 9 || b == 10 || b == 11 || b == 12 || b == 13 || b == 32

/-- ASCII whitespace recognized at str level (str.strip(), int(str), float(str)):
also the file/group/record/unit separators 28..31. -/
def isStrWs (b : Nat) : Bool :=
  isWsByte b || b == 28 || b == 29 || b == 30 || b == 31

/-- Strip bytes satisfying ws from both ends. -/
def wstrip (ws : Nat → Bool) (b : Bytes) : Bytes :=
  ((b.dropWhile ws).reverse.dropWhile ws).reverse

/-- ASCII digit byte. -/
def isDigitByte (b : Nat) : Bool :=
  48 ≤ b && b ≤ 57

/-- Base-10 value of a run of digit bytes. -/
def digitsVal (b : Bytes) : Nat :=
  b.foldl (fun n d => 10 * n + (d - 48)) 0

/-- Nonempty all-digit run, as Python int() requires after sign
(PEP 515 underscore grouping is not modelled; it cannot occur in DBF
numeric fields). -/
def pyUnsignedInt? (b : Bytes) : Option Nat :=
  if b ≠ [] ∧ b.all isDigitByte then some (digitsVal b) else none

/-- Python int() on a byte/character run: optional surrounding whitespace,
optional sign, then digits. The whitespace class is a parameter because the
bytes and str variants strip slightly different sets. -/
def pyIntCore (ws : Nat → Bool) (b : Bytes) : Option Int :=
  match wstrip ws b with
  | 43 :: rest => (pyUnsignedInt? rest).map (fun n => (n : Int))
  | 45 :: rest => (pyUnsignedInt? rest).map (fun n => -(n : Int))
  | s => (pyUnsignedInt? s).map (fun n => (n : Int))

/-- int(bytes). -/
def pyIntOfBytes? (b : Bytes) : Option Int := pyIntCore isWsByte b

/-- int(str) for an ASCII string kept as bytes. -/
def pyIntOfStr? (b : Bytes) : Option Int := pyIntCore isStrWs b

/-- ASCII lowercase. -/
def toLowerByte (b : Nat) : Nat :=
  if 65 ≤ b ∧ b ≤ 90 then b + 32 else b

/-- Digits with at most one decimal point: d+, d+.d*, or .d+ ; the exact
value as (mantissa, decimal exponent). For ip.fp the value is
digitsVal (ip ++ fp) * 10 ^ (-fp.length). -/
def parseDecimal? (b : Bytes) : Option (Int × Int) :=
  match b.splitOn 46 with
  | [w] => if w ≠ [] ∧ w.all isDigitByte then some ((digitsVal w : Int), 0) else none
  | [ip, fp] =>
      if ip ++ fp ≠ [] ∧ ip.all isDigitByte ∧ fp.all isDigitByte then
        some ((digitsVal (ip ++ fp) : Int), -(fp.length : Int))
      else none
  | _ => none

/-- Exponent part after e/E: optional sign then digits. -/
def parseExpPart? (b : Bytes) : Option Int :=
  match b with
  | 43 :: rest => (pyUnsignedInt? rest).map (fun n => (n : Int))
  | 45 :: rest => (pyUnsignedInt? rest).map (fun n => -(n : Int))
  | s => (pyUnsignedInt? s).map (fun n => (n : Int))

/-- Unsigned numeric float literal, with optional exponent. -/
def parseNumeric? (b : Bytes) : Option (Int × Int) :=
  match b.findIdx? (fun c => c == 101 || c == 69) with
  | none => parseDecimal? b
  | some i =>
      match parseDecimal? (b.take i), parseExpPart? (b.drop (i + 1)) with
      | some m, some e => some (m.1, m.2 + e)
      | _, _ => none

/-- The word after the sign in a float literal: inf, infinity, nan
(case-insensitive) or a numeric literal. -/
def pyFloatWord? (neg : Bool) (b : Bytes) : Option PyFloat :=
  let lb := b.map toLowerByte
  if lb = [105, 110, 102] ∨ lb = [105, 110, 102, 105, 110, 105, 116, 121] then
    some (PyFloat.inf neg)
  else if lb = [110, 97, 110] then
    some PyFloat.nan
  else
    (parseNumeric? b).map (fun q => PyFloat.finite (if neg then -q.1 else q.1) q.2)

/-- Python float() on a byte/character run. -/
def pyFloatCore (ws : Nat → Bool) (b : Bytes) : Option PyFloat :=
  match wstrip ws b with
  | 43 :: rest => pyFloatWord? false rest
  | 45 :: rest => pyFloatWord? true rest
  | s => pyFloatWord? false s

/-- float(bytes). -/
def pyFloatOfBytes? (b : Bytes) : Option PyFloat := pyFloatCore isWsByte b

/-- float(str) for an ASCII string kept as bytes. -/
def pyFloatOfStr? (b : Bytes) : Option PyFloat := pyFloatCore isStrWs b

/-- int.from_bytes(data, byteorder="little", signed=False). -/
def leUInt (d : Bytes) : Nat :=
  d.foldr (fun b acc => b + 256 * acc) 0

/-- data.replace(b",", b".") at byte level (also models str.replace(",", ".")
over ASCII bytes). -/
def commaToDot (b : Bytes) : Bytes :=
  b.map (fun c => if c = 44 then 46 else c)

/-- data.replace(b"\x00", b"") followed by .strip(), as at the top of parseN. -/
def parseNCleaned (d : Bytes) : Bytes :=
  wstrip isWsByte (d.filter (fun b => b ≠ 0))

/-- cleaned.decode("ascii", errors="ignore").replace(",", ".").strip():
the string-level remnant tried by parseN as its final fallback. -/
def parseNRemnant (d : Bytes) : Bytes :=
  wstrip isStrWs (commaToDot ((parseNCleaned d).filter (fun b => b < 128)))

/-- CBRFieldParser.parseN from common/dbf.py. An Except.error result models
an exception escaping the method. -/
def parseN (data : Option Bytes) : Except PyErr DbfValue :=
  match data with
  | none => .ok .pyNone
  | some d =>
      let cleaned := parseNCleaned d
      if cleaned = [] then .ok .pyNone
      else
        match pyIntOfBytes? cleaned with
        | some n => .ok (.int n)
        | none =>
            match pyFloatOfBytes? (commaToDot cleaned) with
            | some f => .ok (.float f)
            | none =>
                if d.length = 2 ∨ d.length = 4 ∨ d.length = 8 then
                  .ok (.int (leUInt d))
                else
                  let s := parseNRemnant d
                  if s = [] then .ok .pyNone
                  else
                    match pyIntOfStr? s with
                    | some n => .ok (.int n)
                    | none =>
                        match pyFloatOfStr? s with
                        | some f => .ok (.float f)
                        | none => .error .valueError

/-- Whether a stored cell value is a Python str. -/
def isStrVal : DbfValue → Bool
  | .str _ => true
  | _ => false

/-- repr() of a float as Python prints it for the plain decimal literals that
occur in CBR tables (the scientific-notation thresholds of repr and binary64
shortest-roundtrip corner cases are outside the modelled value range). -/
def floatRepr : PyFloat → String
  | .nan => "nan"
  | .inf b => if b then "-inf" else "inf"
  | .finite m e =>
      if m = 0 then "0.0"
      else
        let sign := if m < 0 then "-" else ""
        let ds := (toString m.natAbs).toList
        let dropped := (ds.reverse.takeWhile (fun c => c = Char.ofNat 48)).length
        let core := ds.take (ds.length - dropped)
        let e2 := e + (dropped : Int)
        if 0 ≤ e2 then
          sign ++ String.mk core ++ String.mk (List.replicate e2.toNat (Char.ofNat 48)) ++ ".0"
        else
          let k := (-e2).toNat
          if core.length > k then
            sign ++ String.mk (core.take (core.length - k)) ++ "." ++
              String.mk (core.drop (core.length - k))
          else
            sign ++ "0." ++ String.mk (List.replicate (k - core.length) (Char.ofNat 48)) ++
              String.mk core

/-- Python str() of a cell value. -/
def pyStr : DbfValue → String
  | .pyNone => "None"
  | .str s => s
  | .int n => toString n
  | .float f => floatRepr f

/-- Whitespace at str level (str.strip(), regex class backslash-s). -/
def isWsChar (c : Char) : Bool := isStrWs c.toNat

/-- str.strip(). -/
def strStrip (s : String) : String :=
  String.mk (((s.toList.dropWhile isWsChar).reverse.dropWhile isWsChar).reverse)

/-- str.replace(",", "."). -/
def strCommaToDot (s : String) : String :=
  String.mk (s.toList.map (fun c => if c = Char.ofNat 44 then Char.ofNat 46 else c))

/-- re.sub(r"\D+", "", s): keep only digits. -/
def digitsOnly (s : String) : String :=
  String.mk (s.toList.filter Char.isDigit)

/-- re.sub(r"\s+", "", s): drop all whitespace. -/
def dropAllWs (s : String) : String :=
  String.mk (s.toList.filter (fun c => !isWsChar c))

/-- s.isdigit() (over the ASCII digits occurring here). -/
def pyIsDigit (s : String) : Bool :=
  s ≠ "" && s.toList.all Char.isDigit

/-- Base-10 value of an all-digit string, i.e. int(s) for such s. -/
def charsVal (s : String) : Nat :=
  s.toList.foldl (fun n c => 10 * n + (c.toNat - 48)) 0

/-! ### form123: normalization and the formula engine (forms/form123.py) -/

/-- form123._norm_regn (same helper in forms 102, 135, 101). -/
def norm_regn (x : DbfValue) : String :=
  match x with
  | .pyNone => digitsOnly ""
  | v => digitsOnly (pyStr v)

/-- form123._norm_acc_to_int. -/
def norm_acc_to_int (x : DbfValue) : Int :=
  let s := digitsOnly (match x with | .pyNone => "" | v => pyStr v)
  if s = "" then -1 else (charsVal s : Int)

/-- form123._value_to_str: note there is no empty-string guard here, unlike
the sibling helpers in forms 101, 102 and 135. -/
def value_to_str_123 (v : DbfValue) : String :=
  match v with
  | .pyNone => "0"
  | .float .nan => "0"
  | v => strCommaToDot (strStrip (pyStr v))

/-- form102._value_to_str (also form135 and form101._to_value_str):
maps an empty result to "0". -/
def value_to_str_102 (v : DbfValue) : String :=
  match v with
  | .pyNone => "0"
  | .float .nan => "0"
  | v =>
      let s := strCommaToDot (strStrip (pyStr v))
      if s = "" then "0" else s

/-- form102._norm_code: strip whitespace; for an all-digit code also strip
leading zeros via str(int(s)). -/
def norm_code_102 (x : DbfValue) : String :=
  let s := match x with | .pyNone => "" | v => pyStr v
  let s := dropAllWs (strStrip s)
  if pyIsDigit s then toString (charsVal s) else s

/-- Worker for the tokenizer: run is the digit run read so far (reversed).
A maximal digit run is emitted when a non-digit character or the end of the
string is reached. -/
def findallTokensAux : List Char → List Char → List String
  | [], run => if run = [] then [] else [String.mk run.reverse]
  | c :: cs, run =>
      if c.isDigit then findallTokensAux cs (c :: run)
      else
        let pre := if run = [] then [] else [String.mk run.reverse]
        if c = Char.ofNat 43 ∨ c = Char.ofNat 45 then
          pre ++ String.mk [c] :: findallTokensAux cs []
        else
          pre ++ findallTokensAux cs []

/-- re.findall(r"\d+|[+]{1}|[-]{1}", expr): maximal digit runs and single
plus/minus characters, everything else skipped. -/
def findallTokens123 (s : List Char) : List String :=
  findallTokensAux s []

/-- One decoded row of the simplified form123 DBF frame (columns REGN, A, B
from read_dbf_to_df). -/
structure Rec123 where
  REGN : DbfValue
  A : DbfValue
  B : DbfValue
deriving DecidableEq, Repr

/-- The ACC column of build_long: _norm_acc_to_int of A. -/
def rec123Acc (r : Rec123) : Int := norm_acc_to_int r.A

/-- sub = df[df["REGN_N"] == regn_bank]: the per-bank slice. -/
def form123Sub (df : List Rec123) (regnBank : String) : List Rec123 :=
  df.filter (fun r => norm_regn r.REGN = regnBank)

/-- The body of the token loop in form123.build_long: an operator passes
through; a code token is looked up in the per-bank slice (first matching row)
and defaults to "0" when absent. -/
def form123TokenValue (sub : List Rec123) (t : String) : String :=
  if t = "+" ∨ t = "-" then t
  else
    match sub.find? (fun r => rec123Acc r = (charsVal t : Int)) with
    | some r => value_to_str_123 r.B
    | none => "0"

/-- The accumulated formula string of form123.build_long for one
(bank, formula) pair. -/
def form123Formula (sub : List Rec123) (expr : String) : String :=
  (findallTokens123 expr.toList).foldl (fun acc t => acc ++ form123TokenValue sub t) ""

/-- The emitted value cell: "=" ++ the accumulated formula. -/
def form123RowValue (sub : List Rec123) (expr : String) : String :=
  "=" ++ form123Formula sub expr

/-- The per-bank lookup induced by the form123 slice: value of the first row
whose ACC equals the code, as a partial map. -/
def form123Lookup (sub : List Rec123) (t : String) : Option String :=
  (sub.find? (fun r => rec123Acc r = (charsVal t : Int))).map (fun r => value_to_str_123 r.B)

/-- The formula value as the spec words it: "=" followed by the tokens in
original order, operator tokens verbatim and each code token replaced by the
looked-up value with default "0" — a pure concatenation, no arithmetic. -/
def specFormulaSubstitution (lookup : String → Option String) (tokens : List String) : String :=
  "=" ++ (tokens.map (fun t => if t = "+" ∨ t = "-" then t else (lookup t).getD "0")).foldr
    (fun a b => a ++ b) ""

/-! ### form102: lookup construction and the formula engine (forms/form102.py) -/

/-- One record of the picked form102 DBF, projected to the three roles used by
_build_lookup_from_dbf (rec.get of the resolved REGN/CODE/value fields). -/
structure Rec102 where
  regn : DbfValue
  code : DbfValue
  val : DbfValue
deriving DecidableEq, Repr

/-- The loop body of _build_lookup_from_dbf for one record: skip when the
normalized REGN or CODE is empty, otherwise the key/value pair. -/
def rec102Entry? (r : Rec102) : Option ((String × String) × String) :=
  let regn := norm_regn r.regn
  if regn = "" then none
  else
    let code := norm_code_102 r.code
    if code = "" then none
    else some ((regn, code), value_to_str_102 r.val)

/-- The dict update of one loop iteration: if key not in lookup,
lookup[key] = val. The Python dict is modelled as a finite map by its lookup
function. -/
def lookupInsertStep (lookup : String × String → Option String) (r : Rec102) :
    String × String → Option String :=
  match rec102Entry? r with
  | none => lookup
  | some (k, v) =>
      if (lookup k).isSome then lookup
      else fun q => if q = k then some v else lookup q

/-- _build_lookup_from_dbf: iterate the records once, inserting under
first-seen-wins semantics. -/
def build_lookup_from_dbf (recs : List Rec102) : String × String → Option String :=
  recs.foldl lookupInsertStep (fun _ => none)

/-- The first entry among the records (in decode order) whose normalized key
is k, as the spec words the lookup invariant. -/
def firstEntry (recs : List Rec102) (k : String × String) : Option String :=
  ((recs.filterMap rec102Entry?).find? (fun e => e.1 = k)).map (fun e => e.2)

/-- The token loop of form102.build_long for one (bank, formula) pair:
lookup.get((regn, code), "0") with the code normalized first. -/
def form102Acc (lookup : String × String → Option String) (regn : String)
    (tokens : List String) : String :=
  tokens.foldl
    (fun acc t =>
      if t = "+" ∨ t = "-" then acc ++ t
      else acc ++ (lookup (regn, norm_code_102 (.str t))).getD "0")
    ""

/-- The emitted value cell of form102.build_long. -/
def form102RowValue (lookup : String × String → Option String) (regn : String)
    (tokens : List String) : String :=
  "=" ++ form102Acc lookup regn tokens

/-! ### DBF selection (common/dbf_picker.py) -/

/-- Candidate field names per role (in UPPER), as configured per form. -/
structure LayoutCandidates where
  regn_candidates : List String
  a_candidates : List String
  b_candidates : List String
deriving DecidableEq, Repr

/-- Actual field names resolved in the chosen DBF. -/
structure DBFLayout where
  regn : String
  a : String
  b : String
deriving DecidableEq, Repr

/-- One candidate file found under the extraction directory: its stem, its
schema (field names), and whether opening it raises (unreadable headers are
skipped by the picker). -/
structure DbfFile where
  stem : String
  fields : List String
  readable : Bool
deriving DecidableEq, Repr

/-- ASCII uppercase of a character (field names and hints are ASCII). -/
def asciiUpperChar (c : Char) : Char :=
  if 97 ≤ c.toNat ∧ c.toNat ≤ 122 then Char.ofNat (c.toNat - 32) else c

/-- str.upper() over ASCII. -/
def asciiUpper (s : String) : String :=
  String.mk (s.toList.map asciiUpperChar)

/-- ASCII lowercase of a character. -/
def asciiLowerChar (c : Char) : Char :=
  if 65 ≤ c.toNat ∧ c.toNat ≤ 90 then Char.ofNat (c.toNat + 32) else c

/-- str.lower() over ASCII. -/
def asciiLower (s : String) : String :=
  String.mk (s.toList.map asciiLowerChar)

/-- Whether the first list occurs at the head of the second. -/
def isPrefixL : List Char → List Char → Bool
  | [], _ => true
  | _ :: _, [] => false
  | c :: cs, d :: ds => decide (c = d) && isPrefixL cs ds

/-- fn = \x7bf.upper(): f for f in field_names\x7d, looked up at c: the last
field whose uppercase form is c (later dict entries overwrite earlier ones). -/
def upperLookup (fields : List String) (c : String) : Option String :=
  fields.reverse.find? (fun f => asciiUpper f = c)

/-- next((fn[c] for c in candidates if c in fn), None): the first candidate
alias present in the schema, resolved to the real field name. -/
def resolveRole (fields : List String) (cands : List String) : Option String :=
  cands.findSome? (fun c => upperLookup fields c)

/-- Worker for the substring test: try every suffix. -/
def containsSubAux : List Char → List Char → Bool
  | l, sub =>
      if isPrefixL sub l then true
      else
        match l with
        | [] => false
        | _ :: t => containsSubAux t sub

/-- Python substring test (sub in s). -/
def containsSubstr (s sub : String) : Bool :=
  containsSubAux s.toList sub.toList

/-- The score of a qualifying file: +10 for a stem containing the hint,
+3 for a canonical A field name, +3 for a canonical B field name. -/
def scoreDbf (prefer : Option String) (f : DbfFile) (a_real b_real : String) : Int :=
  (match prefer with
   | some pf =>
       if pf ≠ "" ∧ containsSubstr (asciiLower f.stem) (asciiLower pf) then 10 else 0
   | none => 0)
  + (if asciiUpper a_real = "C1" ∨ asciiUpper a_real = "C_1" ∨ asciiUpper a_real = "C1_3"
     then 3 else 0)
  + (if asciiUpper b_real = "C3" ∨ asciiUpper b_real = "C_3" ∨ asciiUpper b_real = "C2_3"
     then 3 else 0)

/-- One iteration of the picker loop: unreadable files and files missing a
mandatory role are skipped; a qualifying file replaces the current best only
with a strictly greater score (ties keep the first-encountered file). -/
def pickStep (cands : LayoutCandidates) (prefer : Option String)
    (best : Option (Int × DbfFile × DBFLayout)) (p : DbfFile) :
    Option (Int × DbfFile × DBFLayout) :=
  if p.readable = false then best
  else
    match resolveRole p.fields cands.regn_candidates,
          resolveRole p.fields cands.a_candidates,
          resolveRole p.fields cands.b_candidates with
    | some regn_real, some a_real, some b_real =>
        if regn_real = "" ∨ a_real = "" ∨ b_real = "" then best
        else
          let sc := scoreDbf prefer p a_real b_real
          match best with
          | none => some (sc, p, ⟨regn_real, a_real, b_real⟩)
          | some b => if sc > b.1 then some (sc, p, ⟨regn_real, a_real, b_real⟩) else best
    | _, _, _ => best

/-- pick_dbf_and_layout over the enumerated candidate files. -/
def pick_dbf_and_layout (files : List DbfFile) (cands : LayoutCandidates)
    (prefer : Option String) : Except String (DbfFile × DBFLayout) :=
  if files = [] then .error "No DBF found after extracting archive."
  else
    match files.foldl (pickStep cands prefer) none with
    | none => .error "Could not pick suitable DBF layout."
    | some (_, p, layout) => .ok (p, layout)

/-- A file qualifies when it is readable and resolves all three mandatory
roles to truthy (non-empty) field names; this mirrors the guard of pickStep. -/
def qualifies (cands : LayoutCandidates) (f : DbfFile) : Bool :=
  f.readable &&
    match resolveRole f.fields cands.regn_candidates,
          resolveRole f.fields cands.a_candidates,
          resolveRole f.fields cands.b_candidates with
    | some rr, some ar, some br => !(rr = "" ∨ ar = "" ∨ br = "")
    | _, _, _ => false

/-- DEFAULT_CANDIDATES of forms/form123.py. -/
def form123DefaultCandidates : LayoutCandidates :=
  { regn_candidates := ["REGN", "REG", "REG_NUM", "REGN_BNK"]
    a_candidates := ["C1", "C_1", "NUM_SC", "SC", "SCHET", "ACCOUNT", "NOM_SCH", "NOMER"]
    b_candidates := ["C3", "C_3", "IITG", "SUM", "VALUE", "VAL", "C2", "C_2"] }

/-! ### HTTP download (base/net/http.py) -/

/-- The network environment: what the i-th requests.get call does — raise
(the formatted exception text is the payload) or return a response with a
status code and a body. -/
inductive HttpAttempt where
  | raises (etext : String)
  | resp (status : Int) (content : Bytes)
deriving DecidableEq, Repr

/-- The DownloadResult dataclass of base/net/http.py. -/
structure DownloadResult where
  ok : Bool
  status_code : Option Int
  content : Option Bytes
  error : Option String
  final_url : Option String
deriving DecidableEq, Repr

/-- The retry loop of download_bytes: remaining counts the attempts still to
run, attempt is the current index. The second component of the pair counts the
requests.get calls actually performed. time.sleep between attempts only
delays and is not modelled. -/
def downloadLoop (get : Nat → HttpAttempt) (min_bytes_ok : Nat) (final : String) :
    (attempt : Nat) → (remaining : Nat) → Option Int → Option String →
    DownloadResult × Nat
  | _, 0, last_status, last_err =>
      (⟨false, last_status, none, last_err, some final⟩, 0)
  | attempt, remaining + 1, last_status, last_err =>
      match get attempt with
      | .raises etext =>
          let (r, n) :=
            downloadLoop get min_bytes_ok final (attempt + 1) remaining last_status (some etext)
          (r, n + 1)
      | .resp st body =>
          if st ≠ 200 then
            let (r, n) :=
              downloadLoop get min_bytes_ok final (attempt + 1) remaining (some st)
                (some ("HTTP " ++ toString st))
            (r, n + 1)
          else if body.length < min_bytes_ok then
            let (r, n) :=
              downloadLoop get min_bytes_ok final (attempt + 1) remaining (some st)
                (some ("Too small (" ++ toString body.length ++ " bytes)"))
            (r, n + 1)
          else
            (⟨true, some st, some body, none, some final⟩, 1)

/-- download_bytes of base/net/http.py: normalize the URL (falling back to
the raw URL when normalization raises), then run retries + 1 attempts.
timeout and backoff only bound wall-clock time and are not modelled. -/
def download_bytes (normalize : String → Except String String)
    (get : Nat → HttpAttempt) (url : String) (retries : Nat) (min_bytes_ok : Nat) :
    DownloadResult × Nat :=
  let final := match normalize url with | .ok f => f | .error _ => url
  downloadLoop get min_bytes_ok final 0 (retries + 1) none none

/-- An attempt that does not produce a successful return: an exception, a
non-200 status, or a too-small body. -/
def attemptFails (min_bytes_ok : Nat) : HttpAttempt → Bool
  | .raises _ => true
  | .resp st body => decide (st ≠ 200) || decide (body.length < min_bytes_ok)

/-- An attempt that fails with an HTTP status (a response whose status is
not 200). -/
def isRespFail : HttpAttempt → Bool
  | .raises _ => false
  | .resp st _ => decide (st ≠ 200)

/-- The status a response-attempt carried. -/
def respStatus : HttpAttempt → Int
  | .raises _ => 0
  | .resp st _ => st

/-! ### Runner (common/runner.py) -/

/-- Observable side effects of a run that the claims talk about: a network
download performed for a date. -/
inductive RunEvent where
  | download (d : String)
deriving DecidableEq, Repr

/-- _pick_rar_tool: the first available tool among unrar, 7z, 7zz, else a
fatal RuntimeError. -/
def pick_rar_tool (which : String → Bool) : Except String String :=
  match ["unrar", "7z", "7zz"].find? which with
  | some t => .ok t
  | none => .error "No unrar or 7z found. Install unrar or p7zip."

/-- _extract_rar for the archive of one date: picks the tool (raising if none
is installed), runs it, and raises on a non-zero exit code. runTool gives the
exit code of the invoked tool on the archive of that date. -/
def extract_rar (which : String → Bool) (runTool : String → String → Int)
    (d : String) : Except String Unit :=
  match pick_rar_tool which with
  | .error e => .error e
  | .ok tool => if runTool tool d ≠ 0 then .error "Archive extract failed" else .ok ()

/-- Truthiness of res.content in (not res.ok or not res.content): None or
empty bytes. -/
def contentFalsy (c : Option Bytes) : Bool :=
  match c with
  | none => true
  | some b => decide (b = [])

/-- run_dates_to_dbf_df: loop over dates; a failed download skips the date
(continue) while an extraction or selection error propagates and aborts the
whole run. The first component records the downloads performed, in order; the
scratch-directory cleanup in the finally block is filesystem-only and has no
bearing on the returned value. -/
def run_dates_to_dbf_df (download : String → DownloadResult)
    (which : String → Bool) (runTool : String → String → Int)
    (pick : String → Except String (String × DBFLayout))
    (read : String × DBFLayout → List Rec123) :
    List String → List RunEvent × Except String (List (String × List Rec123))
  | [] => ([], .ok [])
  | d :: rest =>
      let res := download d
      if res.ok = false ∨ contentFalsy res.content then
        let (tr, r) := run_dates_to_dbf_df download which runTool pick read rest
        (.download d :: tr, r)
      else
        match extract_rar which runTool d with
        | .error e => ([.download d], .error e)
        | .ok _ =>
            match pick d with
            | .error e => ([.download d], .error e)
            | .ok dbf =>
                let (tr, r) := run_dates_to_dbf_df download which runTool pick read rest
                (.download d :: tr,
                 match r with
                 | .ok xs => .ok ((d, read dbf) :: xs)
                 | .error e => .error e)

/-! ### form135.run calling the runner (forms/form135.py) -/

/-- The parameters accepted by run_dates_to_dbf_df (its def line in
common/runner.py; it has no var-keyword parameter). -/
def run_dates_to_dbf_df_params : List String :=
  ["dates", "build_url", "candidates", "prefer_stem_contains", "cfg"]

/-- The keyword arguments form135.run passes to run_dates_to_dbf_df. -/
def form135_runner_call_kwargs : List String :=
  ["dates", "build_url", "candidates", "prefer_stem_contains", "cfg",
   "show_progress", "progress_desc"]

/-- Python call binding: a call with these keyword names binds successfully
iff every keyword matches a parameter; otherwise the interpreter raises
TypeError before the callee body runs. -/
def kwargsAccepted (params kwargs : List String) : Bool :=
  kwargs.all (fun k => params.contains k)

/-- form135.run after its default-filling prologue: it performs the call to
run_dates_to_dbf_df with form135_runner_call_kwargs. If binding fails the
TypeError is raised before the callee starts, so no event is emitted and
build_long is never reached. -/
def form135Run (download : String → DownloadResult)
    (which : String → Bool) (runTool : String → String → Int)
    (pick : String → Except String (String × DBFLayout))
    (read : String × DBFLayout → List Rec123) (dates : List String) :
    List RunEvent × Except String (List (String × List Rec123)) :=
  if kwargsAccepted run_dates_to_dbf_df_params form135_runner_call_kwargs then
    run_dates_to_dbf_df download which runTool pick read dates
  else
    ([], .error "TypeError: run_dates_to_dbf_df got an unexpected keyword argument")

end Stratbox

namespace Stratbox

/-! ## Theorems -/

theorem foldl_append_eq_concat (f : String → String) (ts : List String) (init : String) :
    ts.foldl (fun acc t => acc ++ f t) init =
      init ++ (ts.map f).foldr (fun a b => a ++ b) "" := by
  induction ts generalizing init with
  | nil => simp [String.append_empty]
  | cons t ts ih =>
      simp only [List.foldl_cons, List.map_cons, List.foldr_cons]
      rw [ih, String.append_assoc]

theorem form123TokenValue_eq (sub : List Rec123) (t : String) :
    form123TokenValue sub t =
      if t = "+" ∨ t = "-" then t else (form123Lookup sub t).getD "0" := by
  unfold form123TokenValue form123Lookup
  split
  · rfl
  · cases sub.find? (fun r => rec123Acc r = (charsVal t : Int)) <;> simp

/-- C1: for every per-bank slice and every formula expression, the emitted
long-row value is exactly "=" followed by the tokens of the expression
in original order, with plus and minus passing through verbatim and each code
token replaced by the value looked up for (bank, code), defaulting to "0"
when the key is absent; the engine performs no arithmetic, only this
concatenation. Stated for the form123 engine (with its tokenizer) and for
the form102 engine (dict lookup); on the concrete example of the spec the
output is "=100+50-30". -/
theorem form123_formula_substitution :
    (∀ (sub : List Rec123) (expr : String),
        form123RowValue sub expr =
          specFormulaSubstitution (form123Lookup sub) (findallTokens123 expr.toList)) ∧
    (∀ (lookup : String × String → Option String) (regn : String) (tokens : List String),
        form102RowValue lookup regn tokens =
          specFormulaSubstitution (fun t => lookup (regn, norm_code_102 (.str t))) tokens) ∧
    form123RowValue
        [⟨.int 1, .int 401, .str "100"⟩, ⟨.int 1, .int 402, .str "50"⟩,
         ⟨.int 1, .int 403, .str "30"⟩] "401+402-403" = "=100+50-30" := by
  refine ⟨?_, ?_, ?_⟩
  · intro sub expr
    unfold form123RowValue form123Formula specFormulaSubstitution
    rw [foldl_append_eq_concat, String.empty_append]
    have hmap : form123TokenValue sub = fun t =>
        if t = "+" ∨ t = "-" then t else (form123Lookup sub t).getD "0" :=
      funext (form123TokenValue_eq sub)
    rw [hmap]
  · intro lookup regn tokens
    unfold form102RowValue form102Acc specFormulaSubstitution
    have hfun : (fun (acc : String) t =>
        if t = "+" ∨ t = "-" then acc ++ t
        else acc ++ (lookup (regn, norm_code_102 (.str t))).getD "0") =
        (fun (acc : String) t => acc ++
          (if t = "+" ∨ t = "-" then t
           else (lookup (regn, norm_code_102 (.str t))).getD "0")) := by
      funext acc t
      split <;> rfl
    rw [hfun, foldl_append_eq_concat, String.empty_append]
  · decide

theorem build_lookup_go (recs : List Rec102) (m : String × String → Option String)
    (k : String × String) :
    (recs.foldl lookupInsertStep m) k = (m k).or (firstEntry recs k) := by
  induction recs generalizing m with
  | nil => simp [firstEntry]
  | cons r recs ih =>
      simp only [List.foldl_cons]
      rw [ih]
      unfold lookupInsertStep firstEntry
      cases he : rec102Entry? r with
      | none => simp [he, firstEntry, List.filterMap_cons]
      | some kv =>
          obtain ⟨k0, v⟩ := kv
          simp only [List.filterMap_cons, he]
          by_cases hin : (m k0).isSome
          · simp only [hin, if_true]
            by_cases hk : k = k0
            · subst hk
              obtain ⟨x, hx⟩ := Option.isSome_iff_exists.mp hin
              simp [hx, firstEntry, Option.or]
            · have : (decide ((k0, v).1 = k)) = false := by simp [Ne.symm hk]
              simp [firstEntry, List.find?_cons, this]
          · simp only [hin, if_false]
            by_cases hk : k = k0
            · subst hk
              have hmk : m k = none := Option.not_isSome_iff_eq_none.mp hin
              simp [firstEntry, List.find?_cons, hmk, Option.or]
            · have hdec : (decide ((k0, v).1 = k)) = false := by simp [Ne.symm hk]
              simp [firstEntry, List.find?_cons, hdec, hk]

/-- C4: when a decoded record stream contains two records with the same
normalized (registration number, code) key, the built lookup retains the
value of the record that appears first in decode order, whatever the two
values are. -/
theorem lookup_first_seen_wins (pre mid post : List Rec102) (r1 r2 : Rec102)
    (k : String × String) (v1 v2 : String)
    (h1 : rec102Entry? r1 = some (k, v1)) (h2 : rec102Entry? r2 = some (k, v2))
    (hpre : ∀ r ∈ pre, ∀ e, rec102Entry? r = some e → e.1 ≠ k) :
    build_lookup_from_dbf (pre ++ r1 :: mid ++ r2 :: post) k = some v1 := by
  unfold build_lookup_from_dbf
  rw [build_lookup_go]
  have hnone : (pre.filterMap rec102Entry?).find? (fun e => e.1 = k) = none := by
    rw [List.find?_eq_none]
    intro e he
    obtain ⟨r, hr, hre⟩ := List.mem_filterMap.mp he
    simpa using hpre r hr e hre
  unfold firstEntry
  rw [Option.none_or, List.filterMap_append, List.find?_append, List.filterMap_append,
    List.find?_append, hnone, Option.none_or, List.filterMap_cons_some h1]
  simp [List.find?_cons, Option.or]

/-- Witness for lookup_first_seen_wins: two records share key ("7", "10702");
the second carries the larger value 900, yet the index keeps "5". -/
theorem lookup_first_seen_wins_witness :
    build_lookup_from_dbf
      [⟨.int 7, .int 10702, .int 5⟩, ⟨.int 7, .int 10702, .int 900⟩]
      ("7", "10702") = some "5" :=
  lookup_first_seen_wins [] [] [] ⟨.int 7, .int 10702, .int 5⟩
    ⟨.int 7, .int 10702, .int 900⟩ ("7", "10702") "5" "900"
    (by decide) (by decide) (by simp)

/-- C2, counterexample: the field b"abc" fails every decode strategy, its
ASCII remnant "abc" is non-empty and non-numeric, and the final
float(s) fallback raises ValueError instead of mapping the field to None. -/
theorem parseN_raises_on_nonnumeric_remnant :
    parseN (some [97, 98, 99]) = .error .valueError := by decide

/-- C2, amended: parseN maps an empty-after-cleaning field to None, never
raises when the raw length is 2, 4 or 8, and otherwise raises exactly when
the field fails the int and float strategies and its non-empty ASCII-stripped
remnant parses as neither int nor float. -/
theorem parseN_error_characterization (data : Bytes) :
    parseN (some data) = .error .valueError ↔
      (parseNCleaned data ≠ [] ∧
       pyIntOfBytes? (parseNCleaned data) = none ∧
       pyFloatOfBytes? (commaToDot (parseNCleaned data)) = none ∧
       ¬(data.length = 2 ∨ data.length = 4 ∨ data.length = 8) ∧
       parseNRemnant data ≠ [] ∧
       pyIntOfStr? (parseNRemnant data) = none ∧
       pyFloatOfStr? (parseNRemnant data) = none) := by
  by_cases h1 : parseNCleaned data = []
  · simp [parseN, h1]
  · cases h2 : pyIntOfBytes? (parseNCleaned data) with
    | some n => simp [parseN, h1, h2]
    | none =>
        cases h3 : pyFloatOfBytes? (commaToDot (parseNCleaned data)) with
        | some f => simp [parseN, h1, h2, h3]
        | none =>
            by_cases h4 : data.length = 2 ∨ data.length = 4 ∨ data.length = 8
            · simp [parseN, h1, h2, h3, h4]
            · by_cases h5 : parseNRemnant data = []
              · simp [parseN, h1, h2, h3, h4, h5]
              · cases h6 : pyIntOfStr? (parseNRemnant data) with
                | some n => simp [parseN, h1, h2, h3, h4, h5, h6]
                | none =>
                    cases h7 : pyFloatOfStr? (parseNRemnant data) with
                    | some f => simp [parseN, h1, h2, h3, h4, h5, h6, h7]
                    | none => simp [parseN, h1, h2, h3, h4, h5, h6, h7]

/-- C9, counterexample: the decoded value for the field b"1,5" is the native
float 1.5 as produced by float(cleaned.replace(b",", b".")), not a decimal
string. -/
theorem decoded_value_is_native_float :
    parseN (some [49, 44, 53]) = .ok (.float (.finite 15 (-1))) ∧
    isStrVal (.float (.finite 15 (-1))) = false := by decide

/-- C9, amended: a decoded numeric field is stored as whatever parseN
returns — None, a native int, or a native float — never as a string; the
normalized decimal string (comma to dot, empty to "0") is only produced later
by the _value_to_str helpers of the form engines. -/
theorem parseN_never_returns_str :
    (∀ (data : Option Bytes) (v : DbfValue), parseN data = .ok v → isStrVal v = false) ∧
    value_to_str_102 (.float (.finite 15 (-1))) = "1.5" := by
  constructor
  · intro data v h
    cases data with
    | none =>
        simp [parseN] at h
        subst h
        rfl
    | some d =>
        by_cases h1 : parseNCleaned d = []
        · simp [parseN, h1] at h
          subst h
          rfl
        · cases h2 : pyIntOfBytes? (parseNCleaned d) with
          | some n =>
              simp [parseN, h1, h2] at h
              subst h
              rfl
          | none =>
              cases h3 : pyFloatOfBytes? (commaToDot (parseNCleaned d)) with
              | some f =>
                  simp [parseN, h1, h2, h3] at h
                  subst h
                  rfl
              | none =>
                  by_cases h4 : d.length = 2 ∨ d.length = 4 ∨ d.length = 8
                  · simp [parseN, h1, h2, h3, h4] at h
                    subst h
                    rfl
                  · by_cases h5 : parseNRemnant d = []
                    · simp [parseN, h1, h2, h3, h4, h5] at h
                      subst h
                      rfl
                    · cases h6 : pyIntOfStr? (parseNRemnant d) with
                      | some n =>
                          simp [parseN, h1, h2, h3, h4, h5, h6] at h
                          subst h
                          rfl
                      | none =>
                          cases h7 : pyFloatOfStr? (parseNRemnant d) with
                          | some f =>
                              simp [parseN, h1, h2, h3, h4, h5, h6, h7] at h
                              subst h
                              rfl
                          | none =>
                              simp [parseN, h1, h2, h3, h4, h5, h6, h7] at h
  · decide

/-- Witness for parseN_never_returns_str: the value decoded from b"1,5" is
not stored as a string. -/
theorem parseN_never_returns_str_witness :
    isStrVal (DbfValue.float (.finite 15 (-1))) = false :=
  parseN_never_returns_str.1 (some [49, 44, 53]) (.float (.finite 15 (-1))) (by decide)

theorem attemptFails_of_respFail (min_bytes_ok : Nat) (a : HttpAttempt)
    (h : isRespFail a = true) : attemptFails min_bytes_ok a = true := by
  cases a with
  | raises e => simp [isRespFail] at h
  | resp st body => simp [isRespFail] at h; simp [attemptFails, h]

theorem downloadLoop_fail_count (get : Nat → HttpAttempt) (mbo : Nat) (final : String) :
    ∀ (remaining attempt : Nat) (ls : Option Int) (le : Option String),
      (∀ i, i < remaining → attemptFails mbo (get (attempt + i)) = true) →
      (downloadLoop get mbo final attempt remaining ls le).2 = remaining ∧
      (downloadLoop get mbo final attempt remaining ls le).1.ok = false := by
  intro remaining
  induction remaining with
  | zero => intro attempt ls le _; simp [downloadLoop]
  | succ rem ih =>
      intro attempt ls le h
      have h0 : attemptFails mbo (get attempt) = true := by
        have := h 0 (Nat.succ_pos rem)
        simpa using this
      have hrest : ∀ i, i < rem → attemptFails mbo (get (attempt + 1 + i)) = true := by
        intro i hi
        have := h (i + 1) (by omega)
        have harr : attempt + (i + 1) = attempt + 1 + i := by omega
        rwa [harr] at this
      cases hg : get attempt with
      | raises e =>
          have hih := ih (attempt + 1) ls (some e) hrest
          simp [downloadLoop, hg, hih.1, hih.2]
      | resp st body =>
          rw [hg] at h0
          by_cases hst : st = 200
          · subst hst
            have hsmall : body.length < mbo := by
              simp [attemptFails] at h0
              exact h0
            have hih := ih (attempt + 1) (some 200)
              (some ("Too small (" ++ toString body.length ++ " bytes)")) hrest
            simp [downloadLoop, hg, hsmall, hih.1, hih.2]
          · have hih := ih (attempt + 1) (some st) (some ("HTTP " ++ toString st)) hrest
            simp [downloadLoop, hg, hst, hih.1, hih.2]

theorem downloadLoop_respfail_status (get : Nat → HttpAttempt) (mbo : Nat) (final : String) :
    ∀ (remaining attempt : Nat) (ls : Option Int) (le : Option String),
      0 < remaining →
      (∀ i, i < remaining → isRespFail (get (attempt + i)) = true) →
      (downloadLoop get mbo final attempt remaining ls le).1.status_code =
        some (respStatus (get (attempt + remaining - 1))) := by
  intro remaining
  induction remaining with
  | zero => intro _ _ _ h; omega
  | succ rem ih =>
      intro attempt ls le _ h
      have h0 : isRespFail (get attempt) = true := by
        have := h 0 (Nat.succ_pos rem)
        simpa using this
      cases hg : get attempt with
      | raises e => rw [hg] at h0; simp [isRespFail] at h0
      | resp st body =>
          rw [hg] at h0
          have hst : st ≠ 200 := by simpa [isRespFail] using h0
          cases rem with
          | zero => simp [downloadLoop, hg, hst, respStatus]
          | succ rem2 =>
              have hrest : ∀ i, i < rem2 + 1 → isRespFail (get (attempt + 1 + i)) = true := by
                intro i hi
                have := h (i + 1) (by omega)
                have harr : attempt + (i + 1) = attempt + 1 + i := by omega
                rwa [harr] at this
              have hih := ih (attempt + 1) (some st)
                (some ("HTTP " ++ toString st)) (Nat.succ_pos rem2) hrest
              have harr2 : attempt + 1 + (rem2 + 1) - 1 = attempt + (rem2 + 1 + 1) - 1 := by
                omega
              rw [harr2] at hih
              generalize hm : rem2 + 1 = m at hih ⊢
              simp [downloadLoop, hg, hst]
              exact hih

/-- C5: a fetch whose every attempt fails with an HTTP status performs
exactly retries + 1 requests and returns ok = false with the last status code
recorded, rather than letting an exception escape. -/
theorem download_retry_exhaustion (normalize : String → Except String String)
    (get : Nat → HttpAttempt) (url : String) (retries min_bytes_ok : Nat)
    (h : ∀ i, i < retries + 1 → isRespFail (get i) = true) :
    (download_bytes normalize get url retries min_bytes_ok).2 = retries + 1 ∧
    (download_bytes normalize get url retries min_bytes_ok).1.ok = false ∧
    (download_bytes normalize get url retries min_bytes_ok).1.status_code =
      some (respStatus (get retries)) := by
  simp only [download_bytes]
  have hf : ∀ i, i < retries + 1 → attemptFails min_bytes_ok (get (0 + i)) = true := by
    intro i hi
    rw [Nat.zero_add]
    exact attemptFails_of_respFail _ _ (h i hi)
  have hr : ∀ i, i < retries + 1 → isRespFail (get (0 + i)) = true := by
    intro i hi
    rw [Nat.zero_add]
    exact h i hi
  have hc := downloadLoop_fail_count get min_bytes_ok
    (match normalize url with | Except.ok f => f | Except.error _ => url)
    (retries + 1) 0 none none hf
  have hs := downloadLoop_respfail_status get min_bytes_ok
    (match normalize url with | Except.ok f => f | Except.error _ => url)
    (retries + 1) 0 none none (Nat.succ_pos retries) hr
  rw [Nat.zero_add] at hs
  exact ⟨hc.1, hc.2, by simpa using hs⟩

/-- Witness for download_retry_exhaustion: three consecutive HTTP 500
responses with retries = 2 give exactly 3 attempts and an ok = false result
carrying status 500. -/
theorem download_retry_exhaustion_witness :
    (download_bytes (fun u => .ok u) (fun _ => .resp 500 []) "http://x" 2 512).2 = 3 ∧
    (download_bytes (fun u => .ok u) (fun _ => .resp 500 []) "http://x" 2 512).1.ok = false ∧
    (download_bytes (fun u => .ok u) (fun _ => .resp 500 []) "http://x" 2 512).1.status_code =
      some 500 :=
  download_retry_exhaustion (fun u => .ok u) (fun _ => .resp 500 []) "http://x" 2 512
    (by decide)

theorem pickStep_disqualified (cands : LayoutCandidates) (prefer : Option String)
    (best : Option (Int × DbfFile × DBFLayout)) (f : DbfFile)
    (h : qualifies cands f = false) : pickStep cands prefer best f = best := by
  unfold qualifies at h
  unfold pickStep
  by_cases hr : f.readable = false
  · simp [hr]
  · have hr2 : f.readable = true := by
      cases hread : f.readable
      · exact absurd hread hr
      · rfl
    rw [hr2] at h
    simp only [Bool.true_and] at h
    rw [hr2]
    rw [if_neg (by decide : ¬(true = false))]
    cases h1 : resolveRole f.fields cands.regn_candidates with
    | none => simp [h1]
    | some rr =>
        cases h2 : resolveRole f.fields cands.a_candidates with
        | none => simp [h1, h2]
        | some ar =>
            cases h3 : resolveRole f.fields cands.b_candidates with
            | none => simp [h1, h2, h3]
            | some br =>
                rw [h1, h2, h3] at h
                simp at h
                have hdisj : rr = "" ∨ ar = "" ∨ br = "" := by
                  by_cases hrr : rr = ""
                  · exact Or.inl hrr
                  · by_cases har : ar = ""
                    · exact Or.inr (Or.inl har)
                    · exact Or.inr (Or.inr (h hrr har))
                simp only [h1, h2, h3]
                rw [if_pos hdisj]

/-- C7: with two candidate files, one missing a mandatory role and one
resolving all mandatory roles, the picker always returns the qualifying file
with its resolved layout, in either enumeration order — any filename-hint
bonus of the non-qualifying file is irrelevant because disqualification
happens before scoring. -/
theorem picker_prefers_qualifying_file (cands : LayoutCandidates)
    (prefer : Option String) (fA fB : DbfFile) (rr ar br : String)
    (hA : qualifies cands fA = false)
    (hBr : fB.readable = true)
    (h1 : resolveRole fB.fields cands.regn_candidates = some rr)
    (h2 : resolveRole fB.fields cands.a_candidates = some ar)
    (h3 : resolveRole fB.fields cands.b_candidates = some br)
    (hne : ¬(rr = "" ∨ ar = "" ∨ br = "")) :
    pick_dbf_and_layout [fA, fB] cands prefer = .ok (fB, ⟨rr, ar, br⟩) ∧
    pick_dbf_and_layout [fB, fA] cands prefer = .ok (fB, ⟨rr, ar, br⟩) := by
  have hstepB : ∀ best, pickStep cands prefer best fA = best :=
    fun best => pickStep_disqualified cands prefer best fA hA
  constructor
  · unfold pick_dbf_and_layout
    simp only [List.foldl_cons, List.foldl_nil, hstepB]
    unfold pickStep
    simp [hBr, h1, h2, h3, hne]
  · unfold pick_dbf_and_layout
    simp only [List.foldl_cons, List.foldl_nil, hstepB]
    unfold pickStep
    simp [hBr, h1, h2, h3, hne]

/-- Witness for picker_prefers_qualifying_file: with the form123 candidate
lists, a file whose stem contains the hint "123" but whose schema lacks every
value-role alias loses to a plainly named file resolving all three roles. -/
theorem picker_prefers_qualifying_file_witness :
    pick_dbf_and_layout
      [⟨"123super", ["REGN", "C1"], true⟩, ⟨"zzz", ["REGN", "C1", "C3"], true⟩]
      form123DefaultCandidates (some "123") =
      .ok (⟨"zzz", ["REGN", "C1", "C3"], true⟩, ⟨"REGN", "C1", "C3"⟩) ∧
    pick_dbf_and_layout
      [⟨"zzz", ["REGN", "C1", "C3"], true⟩, ⟨"123super", ["REGN", "C1"], true⟩]
      form123DefaultCandidates (some "123") =
      .ok (⟨"zzz", ["REGN", "C1", "C3"], true⟩, ⟨"REGN", "C1", "C3"⟩) :=
  picker_prefers_qualifying_file form123DefaultCandidates (some "123")
    ⟨"123super", ["REGN", "C1"], true⟩ ⟨"zzz", ["REGN", "C1", "C3"], true⟩
    "REGN" "C1" "C3" (by decide) (by decide) (by decide) (by decide) (by decide)
    (by decide)

/-- C3, counterexample: two dates whose downloads both succeed; extraction
fails on the first date only. The run aborts with the extraction error and
the second date is never processed, instead of skipping the first date and
returning the table of the second date. -/
theorem runner_aborts_on_extract_failure :
    run_dates_to_dbf_df (fun _ => ⟨true, some 200, some [0], none, none⟩)
      (fun t => t == "7z") (fun _ d => if d == "d1" then 1 else 0)
      (fun d => .ok (d, ⟨"REGN", "C1", "C3"⟩)) (fun _ => []) ["d1", "d2"] =
      ([.download "d1"], .error "Archive extract failed") := by
  decide

/-- C3, amended: in run_dates_to_dbf_df only a failed or too-small download
is skipped per-date (the run continues with the remaining dates); an error in
archive extraction or in DBF selection is not caught — it aborts the whole
run, discarding prior results and skipping all remaining dates. -/
theorem runner_skip_and_abort_behaviour (download : String → DownloadResult)
    (which : String → Bool) (runTool : String → String → Int)
    (pick : String → Except String (String × DBFLayout))
    (read : String × DBFLayout → List Rec123) (d : String) (rest : List String) :
    ((download d).ok = false ∨ contentFalsy (download d).content = true →
      run_dates_to_dbf_df download which runTool pick read (d :: rest) =
        (RunEvent.download d :: (run_dates_to_dbf_df download which runTool pick read rest).1,
         (run_dates_to_dbf_df download which runTool pick read rest).2)) ∧
    (∀ e, (download d).ok = true → contentFalsy (download d).content = false →
      extract_rar which runTool d = .error e →
      run_dates_to_dbf_df download which runTool pick read (d :: rest) =
        ([RunEvent.download d], .error e)) ∧
    (∀ e, (download d).ok = true → contentFalsy (download d).content = false →
      extract_rar which runTool d = .ok () → pick d = .error e →
      run_dates_to_dbf_df download which runTool pick read (d :: rest) =
        ([RunEvent.download d], .error e)) := by
  refine ⟨?_, ?_, ?_⟩
  · intro hskip
    simp only [run_dates_to_dbf_df]
    rw [if_pos hskip]
  · intro e hok hc hex
    simp only [run_dates_to_dbf_df]
    rw [if_neg (by simp [hok, hc])]
    rw [hex]
  · intro e hok hc hex hpick
    simp only [run_dates_to_dbf_df]
    rw [if_neg (by simp [hok, hc])]
    rw [hex, hpick]

/-- Witness for runner_skip_and_abort_behaviour: a concrete run where the
download of the first date succeeds but its archive fails to extract; the run
aborts with that error. -/
theorem runner_skip_and_abort_behaviour_witness :
    run_dates_to_dbf_df (fun _ => ⟨true, some 200, some [1], none, none⟩)
      (fun t => t == "unrar") (fun _ _ => 1)
      (fun d => .ok (d, ⟨"REGN", "C1", "C3"⟩)) (fun _ => [])
      ["01.01.2024", "01.02.2024"] =
      ([RunEvent.download "01.01.2024"], .error "Archive extract failed") :=
  (runner_skip_and_abort_behaviour (fun _ => ⟨true, some 200, some [1], none, none⟩)
      (fun t => t == "unrar") (fun _ _ => 1)
      (fun d => .ok (d, ⟨"REGN", "C1", "C3"⟩)) (fun _ => [])
      "01.01.2024" ["01.02.2024"]).2.1 "Archive extract failed"
    (by decide) (by decide) (by decide)

/-- C6, counterexample: no extraction tool is installed, yet the run performs
the download of the first date (network activity) before aborting with the
missing-tool RuntimeError; the claim that no download is attempted is false. -/
theorem no_tool_download_still_attempted :
    run_dates_to_dbf_df (fun _ => ⟨true, some 200, some [7], none, none⟩)
      (fun _ => false) (fun _ _ => 0) (fun d => .ok (d, ⟨"REGN", "C1", "C3"⟩))
      (fun _ => []) ["d0"] =
      ([.download "d0"], .error "No unrar or 7z found. Install unrar or p7zip.") := by
  decide

/-- C6, amended: the missing-tool check happens inside _extract_rar, so with
no tool installed the run aborts with the fatal RuntimeError only when the
first successful download reaches extraction — after network activity for
that date, not before any network activity. -/
theorem no_tool_aborts_after_first_download (download : String → DownloadResult)
    (which : String → Bool) (runTool : String → String → Int)
    (pick : String → Except String (String × DBFLayout))
    (read : String × DBFLayout → List Rec123) (d : String) (rest : List String)
    (hw1 : which "unrar" = false) (hw2 : which "7z" = false) (hw3 : which "7zz" = false)
    (hok : (download d).ok = true) (hc : contentFalsy (download d).content = false) :
    run_dates_to_dbf_df download which runTool pick read (d :: rest) =
      ([RunEvent.download d], .error "No unrar or 7z found. Install unrar or p7zip.") := by
  have hex : extract_rar which runTool d =
      .error "No unrar or 7z found. Install unrar or p7zip." := by
    unfold extract_rar pick_rar_tool
    simp [List.find?_cons, hw1, hw2, hw3]
  simp only [run_dates_to_dbf_df]
  rw [if_neg (by simp [hok, hc])]
  rw [hex]

/-- Witness for no_tool_aborts_after_first_download: concrete run with no
tool available and a successful first download. -/
theorem no_tool_aborts_after_first_download_witness :
    run_dates_to_dbf_df (fun _ => ⟨true, some 200, some [2, 3], none, none⟩)
      (fun _ => false) (fun _ _ => 0) (fun d => .ok (d, ⟨"REGN", "C1", "C3"⟩))
      (fun _ => []) ["x1", "x2"] =
      ([RunEvent.download "x1"], .error "No unrar or 7z found. Install unrar or p7zip.") :=
  no_tool_aborts_after_first_download (fun _ => ⟨true, some 200, some [2, 3], none, none⟩)
    (fun _ => false) (fun _ _ => 0) (fun d => .ok (d, ⟨"REGN", "C1", "C3"⟩))
    (fun _ => []) "x1" ["x2"] rfl rfl rfl rfl (by decide)

/-- C10: form135.run always passes the keywords show_progress and
progress_desc to run_dates_to_dbf_df, whose signature does not accept them,
so for every input the call raises TypeError before the runner body starts:
no download happens and no row is built. -/
theorem form135_run_type_error (download : String → DownloadResult)
    (which : String → Bool) (runTool : String → String → Int)
    (pick : String → Except String (String × DBFLayout))
    (read : String × DBFLayout → List Rec123) (dates : List String) :
    form135Run download which runTool pick read dates =
      ([], .error "TypeError: run_dates_to_dbf_df got an unexpected keyword argument") := by
  unfold form135Run
  rw [if_neg (by decide)]

/-- C10, code evaluation: the binding check itself — the kwargs of the call
in form135.run are not all accepted by the parameters of run_dates_to_dbf_df. -/
theorem form135_kwargs_rejected :
    kwargsAccepted run_dates_to_dbf_df_params form135_runner_call_kwargs = false := by
  decide

/-- C8: at the failing input — a form123 row whose present value cell decodes
to a whitespace-only string — _value_to_str returns "" and the emitted
formula becomes "=+0": the substituted value for the present code 401 is the
empty string, while an absent code (402) still gets "0". The sibling helper
of forms 101/102/135 maps the same cell to "0". -/
theorem form123_empty_value_substitution :
    form123RowValue (form123Sub [⟨.int 1, .int 401, .str " "⟩] "1") "401+402" = "=+0" ∧
    value_to_str_123 (.str " ") = "" ∧
    value_to_str_102 (.str " ") = "0" := by
  decide

end Stratbox
